import Mathlib

/-!
Verification of `boost/pool/detail/mutex.hpp` (Boost.Pool light-weight mutex
wrappers): the compile-time platform dispatch that selects `default_mutex`,
and the behaviour of the three wrapper classes `win32_mutex`,
`pthread_mutex` and `null_mutex`.
-/

namespace BoostPoolMutex

/-! ### Build configuration and preprocessor dispatch

The header reads six preprocessor symbols.  A build configuration records,
for each, whether it is defined before the header is preprocessed.
`posixThreads` stands for `_POSIX_THREADS` as visible at line 57 (after the
conditional `#include <unistd.h>`). -/

structure BuildConfig where
  hasThreads : Bool
  userNoMT : Bool
  windows : Bool
  hasUnistdH : Bool
  posixThreads : Bool
  hasPthreads : Bool
deriving DecidableEq, Repr

/-- Lines 44-46: `#if !defined(BOOST_HAS_THREADS) && !defined(BOOST_NO_MT)`
then the header itself defines `BOOST_NO_MT`. -/
def autoDefinesNoMT (c : BuildConfig) : Bool :=
  !c.hasThreads && !c.userNoMT

/-- Whether `BOOST_NO_MT` is defined once line 46 has been processed: either
the user defined it, or the header auto-defined it. -/
def boostNoMT (c : BuildConfig) : Bool :=
  c.userNoMT || autoDefinesNoMT c

/-- The three values of the helper macro (lines 40-42). -/
inductive MutexHelper
  | helperNone
  | helperWin32
  | helperPthread
deriving DecidableEq, Repr

/-- Lines 48-62: the value `BOOST_MUTEX_HELPER` ends up with, or `none` when
no branch defines it (no `BOOST_NO_MT`, not Windows, no POSIX threads). -/
def mutexHelper (c : BuildConfig) : Option MutexHelper :=
  if boostNoMT c then some .helperNone
  else if c.windows then some .helperWin32
  else if c.posixThreads || c.hasPthreads then some .helperPthread
  else none

/-- The three wrapper classes of the header. -/
inductive MutexVariant
  | null_mutex
  | win32_mutex
  | pthread_mutex
deriving DecidableEq, Repr

/-- The diagnostic of the `#error` directive at line 65. -/
def platformErrorMsg : String :=
  "Unable to determine platform mutex type; define BOOST_NO_MT to assume single-threaded"

/-- Preprocessing the whole header on configuration `c`: lines 64-66 fail the
build when `BOOST_MUTEX_HELPER` is undefined, otherwise lines 151-157 bind
`default_mutex` to the variant matching the helper value. -/
def default_mutex (c : BuildConfig) : Except String MutexVariant :=
  match mutexHelper c with
  | some .helperNone => .ok .null_mutex
  | some .helperWin32 => .ok .win32_mutex
  | some .helperPthread => .ok .pthread_mutex
  | none => .error platformErrorMsg

/-! ### Ownership semantics of the real-synchronization variants

Modelled from the spec: the native primitives (`EnterCriticalSection` /
`LeaveCriticalSection`, `pthread_mutex_lock` / `pthread_mutex_unlock`) are
not part of this repository; their ownership semantics follow the spec's
words: a mutex is always either unowned or owned by exactly one thread,
`lock()` completes only when the mutex is unowned and makes the caller the
owner, `unlock()` releases the caller's ownership.  Wall-clock time is
abstracted as the usual interleaving of atomic transitions. -/

/-- Threads are identified by natural numbers. -/
abbrev ThreadId := Nat

/-- What a thread contending on one Lock is doing: outside the critical
section, or between a successful `lock()` and its matching `unlock()`. -/
inductive ThreadPC
  | outside
  | inCS
deriving DecidableEq, Repr

/-- Global state of one real-variant Lock and the threads contending on it:
the owner recorded by the native handle, and each thread's position. -/
structure SysState where
  owner : Option ThreadId
  pcs : ThreadId → ThreadPC

/-- The state right after the Lock is default-constructed: unowned, every
thread outside the critical section. -/
def initState : SysState :=
  { owner := none, pcs := fun _ => .outside }

/-- Atomic transitions: `acquire t` is the completion of a successful
`lock()` by thread `t` (possible only while the mutex is unowned; a thread
calling `lock()` while another owns the mutex blocks, i.e. has no enabled
transition); `release t` is `unlock()` by a thread inside the critical
section. -/
inductive SysStep : SysState → SysState → Prop
  | acquire (t : ThreadId) (s : SysState) :
      s.pcs t = .outside → s.owner = none →
      SysStep s { owner := some t, pcs := fun u => if u = t then .inCS else s.pcs u }
  | release (t : ThreadId) (s : SysState) :
      s.pcs t = .inCS →
      SysStep s { owner := none, pcs := fun u => if u = t then .outside else s.pcs u }

/-- States reachable from the default-constructed state by interleaved
lock/unlock transitions. -/
inductive Reachable : SysState → Prop
  | init : Reachable initState
  | step {s s' : SysState} : Reachable s → SysStep s s' → Reachable s'

/-- Auxiliary invariant: any thread inside the critical section is the one
the native handle records as owner. -/
def OwnerInv (s : SysState) : Prop :=
  ∀ t : ThreadId, s.pcs t = .inCS → s.owner = some t

/-- A concrete reachable state with thread 0 inside the critical section,
produced by one `acquire` step from the initial state. -/
def csWitnessState : SysState :=
  { owner := some 0, pcs := fun u => if u = 0 then .inCS else initState.pcs u }

/-! ### The two-state ownership machine of one Lock

Modelled from the spec: the wrapper-level view of a single Lock value is
just the ownership recorded by its native handle. -/

/-- State of one Lock: `none` when unowned, `some t` when owned by `t`. -/
abbrev LockState := Option ThreadId

/-- Default construction (`InitializeCriticalSection` /
`pthread_mutex_init`): the Lock starts unowned. -/
def lockCtor : LockState := none

/-- Thread `t` calls `lock()`: `some s'` when the call completes with the
new state `s'`, `none` when the call blocks (another thread owns the Lock)
and no transition completes. -/
def lockCall (t : ThreadId) : LockState → Option LockState
  | none => some (some t)
  | some _ => none

/-- Thread `t` calls `unlock()`: defined (per the caller contract) only when
`t` owns the Lock, in which case the Lock becomes unowned. -/
def unlockCall (t : ThreadId) : LockState → Option LockState
  | some u => if u = t then some none else none
  | none => none

/-- Lock states reachable from default construction by completed `lock()`
and `unlock()` calls. -/
inductive LockReachable : LockState → Prop
  | init : LockReachable lockCtor
  | lockStep {s s' : LockState} {t : ThreadId} :
      LockReachable s → lockCall t s = some s' → LockReachable s'
  | unlockStep {s s' : LockState} {t : ThreadId} :
      LockReachable s → unlockCall t s = some s' → LockReachable s'

/-! ### The wrapper bodies as statement lists

Each member function of the three classes is embedded as the list of C++
statements of its body, read off the source. -/

/-- The native calls appearing in the header. -/
inductive NativeCall
  | initializeCriticalSection
  | deleteCriticalSection
  | enterCriticalSection
  | leaveCriticalSection
  | pthreadMutexInit
  | pthreadMutexDestroy
  | pthreadMutexLock
  | pthreadMutexUnlock
deriving DecidableEq, Repr

/-- Statements of the tiny C++ fragment the wrapper bodies use: a native
call on the address of the `mtx` member whose returned status is discarded,
or (expressible, but used nowhere in this header) a checked native call that
surfaces a nonzero status as an error. -/
inductive CppStmt
  | callNativeOnMtx (c : NativeCall)
  | checkNativeOnMtx (c : NativeCall)
deriving DecidableEq, Repr

def win32_mutex_ctor_body : List CppStmt := [.callNativeOnMtx .initializeCriticalSection]

def win32_mutex_dtor_body : List CppStmt := [.callNativeOnMtx .deleteCriticalSection]

def win32_mutex_lock_body : List CppStmt := [.callNativeOnMtx .enterCriticalSection]

def win32_mutex_unlock_body : List CppStmt := [.callNativeOnMtx .leaveCriticalSection]

def pthread_mutex_ctor_body : List CppStmt := [.callNativeOnMtx .pthreadMutexInit]

def pthread_mutex_dtor_body : List CppStmt := [.callNativeOnMtx .pthreadMutexDestroy]

def pthread_mutex_lock_body : List CppStmt := [.callNativeOnMtx .pthreadMutexLock]

def pthread_mutex_unlock_body : List CppStmt := [.callNativeOnMtx .pthreadMutexUnlock]

def null_mutex_ctor_body : List CppStmt := []

def null_mutex_lock_body : List CppStmt := []

def null_mutex_unlock_body : List CppStmt := []

/-- All eleven member-function bodies of the header. -/
def wrapperBodies : List (List CppStmt) :=
  [win32_mutex_ctor_body, win32_mutex_dtor_body,
   win32_mutex_lock_body, win32_mutex_unlock_body,
   pthread_mutex_ctor_body, pthread_mutex_dtor_body,
   pthread_mutex_lock_body, pthread_mutex_unlock_body,
   null_mutex_ctor_body, null_mutex_lock_body, null_mutex_unlock_body]

/-- A semantics for the native calls on machine states of type `σ`: a state
effect, and the integer status a call such as `pthread_mutex_lock` returns. -/
structure NativeSem (σ : Type) where
  effect : NativeCall → σ → σ
  status : NativeCall → σ → Int

/-- Run a body: a plain call applies the effect and discards the status; a
checked call would surface a nonzero status as an error. -/
def execBody {σ : Type} (sem : NativeSem σ) : List CppStmt → σ → Except Int σ
  | [], s => .ok s
  | .callNativeOnMtx c :: rest, s => execBody sem rest (sem.effect c s)
  | .checkNativeOnMtx c :: rest, s =>
      if sem.status c s = 0 then execBody sem rest (sem.effect c s)
      else .error (sem.status c s)

/-- Whether a statement observes the status returned by the native call. -/
def observesStatus : CppStmt → Bool
  | .callNativeOnMtx _ => false
  | .checkNativeOnMtx _ => true

/-- Whether a statement reads the instance member `mtx` (every native call
in this header takes the address of `mtx`). -/
def usesMtxMember : CppStmt → Bool
  | .callNativeOnMtx _ => true
  | .checkNativeOnMtx _ => true

/-- The two operations of `null_mutex`. -/
inductive NullOp
  | lockOp
  | unlockOp
deriving DecidableEq, Repr

/-- Body of the `null_mutex` member implementing an operation. -/
def null_mutex_body : NullOp → List CppStmt
  | .lockOp => null_mutex_lock_body
  | .unlockOp => null_mutex_unlock_body

/-- Run a sequence of `null_mutex` operations from state `s`, stopping at
the first error.  The function is total: no call can block. -/
def runNullOps {σ : Type} (sem : NativeSem σ) : List NullOp → σ → Except Int σ
  | [], s => .ok s
  | op :: rest, s =>
      match execBody sem (null_mutex_body op) s with
      | .ok s' => runNullOps sem rest s'
      | .error e => .error e

/-! ### Declaration-level facts about the three classes -/

/-- C++ member accessibility. -/
inductive Access
  | publicAcc
  | privateAcc
deriving DecidableEq, Repr

/-- Facts about a member function, read off the class definition. -/
structure MemberFun where
  fname : String
  isStatic : Bool
  returnsVoid : Bool
  access : Access
  body : List CppStmt

/-- Facts about one of the three classes: the accessibility of its declared
copy constructor and copy assignment operator, and its `lock` / `unlock`
members. -/
structure ClassDecl where
  cname : String
  copyCtorAccess : Access
  copyAssignAccess : Access
  lockMember : MemberFun
  unlockMember : MemberFun

/-- Lines 87-106 of the header. -/
def win32_mutex_decl : ClassDecl :=
  { cname := "win32_mutex"
    copyCtorAccess := .privateAcc
    copyAssignAccess := .privateAcc
    lockMember :=
      { fname := "lock", isStatic := false, returnsVoid := true,
        access := .publicAcc, body := win32_mutex_lock_body }
    unlockMember :=
      { fname := "unlock", isStatic := false, returnsVoid := true,
        access := .publicAcc, body := win32_mutex_unlock_body } }

/-- Lines 112-132 of the header. -/
def pthread_mutex_decl : ClassDecl :=
  { cname := "pthread_mutex"
    copyCtorAccess := .privateAcc
    copyAssignAccess := .privateAcc
    lockMember :=
      { fname := "lock", isStatic := false, returnsVoid := true,
        access := .publicAcc, body := pthread_mutex_lock_body }
    unlockMember :=
      { fname := "unlock", isStatic := false, returnsVoid := true,
        access := .publicAcc, body := pthread_mutex_unlock_body } }

/-- Lines 138-149 of the header. -/
def null_mutex_decl : ClassDecl :=
  { cname := "null_mutex"
    copyCtorAccess := .privateAcc
    copyAssignAccess := .privateAcc
    lockMember :=
      { fname := "lock", isStatic := true, returnsVoid := true,
        access := .publicAcc, body := null_mutex_lock_body }
    unlockMember :=
      { fname := "unlock", isStatic := true, returnsVoid := true,
        access := .publicAcc, body := null_mutex_unlock_body } }

/-- Modelled from the spec (the C++ access rule the spec's words rely on):
client code can copy-construct a class value only when the copy constructor
is public. -/
def copyableByClients (d : ClassDecl) : Bool :=
  d.copyCtorAccess == .publicAcc

/-- Modelled from the spec: client code can assign a class value only when
the copy assignment operator is public. -/
def assignableByClients (d : ClassDecl) : Bool :=
  d.copyAssignAccess == .publicAcc

/-- The six `lock` / `unlock` members of the three classes. -/
def lockUnlockMembers : List MemberFun :=
  [win32_mutex_decl.lockMember, win32_mutex_decl.unlockMember,
   pthread_mutex_decl.lockMember, pthread_mutex_decl.unlockMember,
   null_mutex_decl.lockMember, null_mutex_decl.unlockMember]

/-- A concrete native semantics on `Nat` states: no state effect, every
status 0. -/
def idSem0 : NativeSem Nat :=
  { effect := fun _ s => s, status := fun _ _ => 0 }

/-- Same state effect as `idSem0`, but every status 1. -/
def idSem1 : NativeSem Nat :=
  { effect := fun _ s => s, status := fun _ _ => 1 }

/-! ### Native resource accounting

Modelled from the spec: the accounting of native handles, which the spec
phrases as platform resource counters.  `InitializeCriticalSection` /
`pthread_mutex_init` bring a fresh native handle into existence;
`DeleteCriticalSection` / `pthread_mutex_destroy` release the handle of the
instance being destroyed. -/

/-- The platform's view: the next fresh handle id and the multiset of
currently initialized native handles. -/
structure ResourceWorld where
  nextHandle : Nat
  live : Multiset Nat

/-- Constructing a Lock (`win32_mutex` / `pthread_mutex` constructor):
initializes a fresh native handle, returned as the new instance's member. -/
def constructLock (w : ResourceWorld) : ResourceWorld × Nat :=
  ({ nextHandle := w.nextHandle + 1, live := w.nextHandle ::ₘ w.live }, w.nextHandle)

/-- Destructing a Lock holding handle `h` (`~win32_mutex` /
`~pthread_mutex`): destroys that handle. -/
def destructLock (h : Nat) (w : ResourceWorld) : ResourceWorld :=
  { w with live := w.live.erase h }

/-- Construct `n` Lock instances, returning the final world and the handles
of the constructed instances. -/
def constructN : Nat → ResourceWorld → ResourceWorld × List Nat
  | 0, w => (w, [])
  | n + 1, w =>
      let p := constructLock w
      let q := constructN n p.1
      (q.1, p.2 :: q.2)

/-- Destruct every instance in the list. -/
def destructAll : List Nat → ResourceWorld → ResourceWorld
  | [], w => w
  | h :: hs, w => destructAll hs (destructLock h w)

end BoostPoolMutex

namespace BoostPoolMutex

theorem ownerInv_init : OwnerInv initState := by
  intro t h
  simp [initState] at h

theorem ownerInv_step {s s' : SysState} (hinv : OwnerInv s) (hstep : SysStep s s') :
    OwnerInv s' := by
  cases hstep with
  | acquire t s hpc how =>
      intro u hu
      simp only at hu ⊢
      by_cases hut : u = t
      · simp [hut]
      · simp [hut] at hu
        have := hinv u hu
        rw [how] at this
        exact absurd this (by simp)
  | release t s hpc =>
      intro u hu
      simp only at hu ⊢
      by_cases hut : u = t
      · simp [hut] at hu
      · simp [hut] at hu
        have hu' := hinv u hu
        have ht' := hinv t hpc
        rw [hu'] at ht'
        exact absurd ((Option.some.injEq _ _).mp ht') hut

theorem ownerInv_reachable {s : SysState} (h : Reachable s) : OwnerInv s := by
  induction h with
  | init => exact ownerInv_init
  | step _ hstep ih => exact ownerInv_step ih hstep

/-- C2: `default_mutex` selection policy: `BOOST_NO_MT` forces `null_mutex`
unconditionally; otherwise Windows selects `win32_mutex`; otherwise detected
POSIX threads select `pthread_mutex`; and any build that compiles has
exactly one variant. -/
theorem default_mutex_selection (c : BuildConfig) :
    (boostNoMT c = true → default_mutex c = .ok .null_mutex) ∧
    (boostNoMT c = false → c.windows = true → default_mutex c = .ok .win32_mutex) ∧
    (boostNoMT c = false → c.windows = false →
      (c.posixThreads || c.hasPthreads) = true → default_mutex c = .ok .pthread_mutex) ∧
    (∀ v₁ v₂ : MutexVariant, default_mutex c = .ok v₁ → default_mutex c = .ok v₂ → v₁ = v₂) := by
  refine ⟨?_, ?_, ?_, ?_⟩
  · intro h
    simp [default_mutex, mutexHelper, h]
  · intro h hw
    simp [default_mutex, mutexHelper, h, hw]
  · intro h hw hp
    simp [default_mutex, mutexHelper, h, hw, hp]
  · intro v₁ v₂ h₁ h₂
    rw [h₁] at h₂
    exact (Except.ok.injEq _ _).mp h₂

/-- Witness for `default_mutex_selection` at a concrete POSIX configuration. -/
theorem default_mutex_selection_witness :
    (boostNoMT ⟨true, false, false, true, true, true⟩ = false ∧
      default_mutex ⟨true, false, false, true, true, true⟩ = .ok .pthread_mutex) :=
  ⟨by decide,
    (default_mutex_selection ⟨true, false, false, true, true, true⟩).2.2.1
      (by decide) (by decide) (by decide)⟩

/-- C3: when multithreading is not disabled (after the auto-definition of
lines 44-46) and neither the Windows nor the POSIX family is detected, the
build fails at the `#error` of line 65 instead of selecting `null_mutex`. -/
theorem undetected_platform_compile_error (c : BuildConfig)
    (hmt : boostNoMT c = false) (hw : c.windows = false)
    (hp : c.posixThreads = false) (hpt : c.hasPthreads = false) :
    default_mutex c = .error platformErrorMsg := by
  simp [default_mutex, mutexHelper, hmt, hw, hp, hpt]

/-- Witness for `undetected_platform_compile_error`: threads reported, user
did not disable MT, yet no native family is detected. -/
theorem undetected_platform_compile_error_witness :
    (boostNoMT ⟨true, false, false, false, false, false⟩ = false ∧
      default_mutex ⟨true, false, false, false, false, false⟩ = .error platformErrorMsg) :=
  ⟨by decide,
    undetected_platform_compile_error ⟨true, false, false, false, false, false⟩
      (by decide) (by decide) (by decide) (by decide)⟩

/-- C9: with `BOOST_HAS_THREADS` undefined and no user switch, the header
auto-defines `BOOST_NO_MT` itself and silently selects `null_mutex`; the
build does not reach the `#error`. -/
theorem no_threads_auto_null_mutex (c : BuildConfig)
    (ht : c.hasThreads = false) (hu : c.userNoMT = false) :
    autoDefinesNoMT c = true ∧ default_mutex c = .ok .null_mutex := by
  constructor
  · simp [autoDefinesNoMT, ht, hu]
  · simp [default_mutex, mutexHelper, boostNoMT, autoDefinesNoMT, ht, hu]

/-- Witness for `no_threads_auto_null_mutex` at a concrete configuration. -/
theorem no_threads_auto_null_mutex_witness :
    (autoDefinesNoMT ⟨false, false, false, false, false, false⟩ = true ∧
      default_mutex ⟨false, false, false, false, false, false⟩ = .ok .null_mutex) :=
  no_threads_auto_null_mutex ⟨false, false, false, false, false, false⟩
    (by decide) (by decide)

/-- C1: mutual exclusion for the real-synchronization variants: in every
reachable state of the interleaved system, any two threads that are between
a successful `lock()` and its matching `unlock()` on the same Lock are the
same thread; no instant has two simultaneous owners. -/
theorem mutual_exclusion_real_variants {s : SysState} (h : Reachable s)
    (t₁ t₂ : ThreadId) (h₁ : s.pcs t₁ = .inCS) (h₂ : s.pcs t₂ = .inCS) :
    t₁ = t₂ := by
  have i := ownerInv_reachable h
  have e₁ := i t₁ h₁
  have e₂ := i t₂ h₂
  rw [e₁] at e₂
  exact (Option.some.injEq _ _).mp e₂

/-- Witness for `mutual_exclusion_real_variants`: one `acquire` step from
the initial state reaches a state with thread 0 in the critical section. -/
theorem mutual_exclusion_real_variants_witness :
    Reachable csWitnessState ∧ csWitnessState.pcs 0 = ThreadPC.inCS ∧ (0 : ThreadId) = 0 :=
  have hr : Reachable csWitnessState :=
    Reachable.step Reachable.init (SysStep.acquire 0 initState rfl rfl)
  ⟨hr, rfl, mutual_exclusion_real_variants hr 0 0 rfl rfl⟩

/-- C5: the two-state ownership machine of a real-variant Lock: default
construction yields the unowned state; a `lock()` by `t` completes exactly
on an unowned Lock and makes `t` the owner (it blocks, completing no
transition, while any thread owns it); `unlock()` completes exactly under
the precondition that the caller owns the Lock, restoring the unowned
state; and every reachable state is unowned or owned by exactly one thread. -/
theorem lock_ownership_state_machine :
    lockCtor = none ∧
    (∀ t : ThreadId, lockCall t none = some (some t)) ∧
    (∀ t u : ThreadId, lockCall t (some u) = none) ∧
    (∀ t : ThreadId, unlockCall t (some t) = some none) ∧
    (∀ (t : ThreadId) (s s' : LockState), unlockCall t s = some s' → s = some t ∧ s' = none) ∧
    (∀ s : LockState, LockReachable s → s = none ∨ ∃! t : ThreadId, s = some t) := by
  refine ⟨rfl, fun t => rfl, fun t u => rfl, fun t => by simp [unlockCall], ?_, ?_⟩
  · intro t s s' h
    match s with
    | none => exact absurd h (by simp [unlockCall])
    | some u =>
        simp only [unlockCall] at h
        by_cases hut : u = t
        · subst hut
          simp at h
          exact ⟨rfl, h.symm⟩
        · simp [hut] at h
  · intro s _
    match s with
    | none => exact Or.inl rfl
    | some t => exact Or.inr ⟨t, rfl, fun u hu => ((Option.some.injEq _ _).mp hu).symm⟩

/-- Witness for `lock_ownership_state_machine`, discharging the `unlock`
precondition clause at thread 0 and the reachability clause at the initial
state. -/
theorem lock_ownership_state_machine_witness :
    (unlockCall 0 (some 0) = some none ∧ ((some 0 : LockState) = some 0 ∧ (none : LockState) = none)) ∧
    (LockReachable lockCtor ∧ (lockCtor = none ∨ ∃! t : ThreadId, lockCtor = some t)) :=
  ⟨⟨by simp [unlockCall], lock_ownership_state_machine.2.2.2.2.1 0 (some 0) none (by simp [unlockCall])⟩,
   ⟨LockReachable.init, lock_ownership_state_machine.2.2.2.2.2 lockCtor LockReachable.init⟩⟩

/-- C4: the no-op variant is inert: any sequence of `null_mutex` `lock()` /
`unlock()` calls, of any length and in any order, under any native
semantics, returns the state unchanged and signals no error; `runNullOps`
being total, no call blocks. -/
theorem null_mutex_inert {σ : Type} (sem : NativeSem σ) (ops : List NullOp) (s : σ) :
    runNullOps sem ops s = .ok s := by
  induction ops generalizing s with
  | nil => rfl
  | cons op rest ih =>
      cases op <;>
        simpa [runNullOps, null_mutex_body, null_mutex_lock_body,
          null_mutex_unlock_body, execBody] using ih s

/-- C6: none of the three classes lets client code copy-construct or assign
a Lock: all the copy constructors and copy assignment operators are
declared private (and never defined). -/
theorem lock_not_copyable :
    copyableByClients win32_mutex_decl = false ∧
    assignableByClients win32_mutex_decl = false ∧
    copyableByClients pthread_mutex_decl = false ∧
    assignableByClients pthread_mutex_decl = false ∧
    copyableByClients null_mutex_decl = false ∧
    assignableByClients null_mutex_decl = false := by
  decide

/-- Helper for C7: constructing `n` instances adds exactly the returned
handles to the live multiset. -/
theorem constructN_live (n : Nat) : ∀ w : ResourceWorld,
    (constructN n w).1.live = ↑(constructN n w).2 + w.live := by
  induction n with
  | zero => intro w; simp [constructN]
  | succ n ih =>
      intro w
      simp only [constructN, constructLock]
      rw [ih]
      simp [← Multiset.cons_coe, Multiset.cons_add]

/-- Helper for C7: destructing a list of instances removes exactly their
handles from the live multiset. -/
theorem destructAll_live : ∀ (hs : List Nat) (w : ResourceWorld) (rest : Multiset Nat),
    w.live = ↑hs + rest → (destructAll hs w).live = rest := by
  intro hs
  induction hs with
  | nil =>
      intro w rest h
      simpa [destructAll] using h
  | cons h hs ih =>
      intro w rest hw
      simp only [destructAll]
      apply ih
      simp [destructLock, hw, ← Multiset.cons_coe, Multiset.cons_add,
        Multiset.erase_cons_head]

/-- C7: construct/destruct symmetry: constructing `n` Lock instances (never
locked) and then destructing all of them leaves the platform's live-handle
multiset exactly as it was, so no native resource stays allocated. -/
theorem construct_destruct_symmetry (n : Nat) (w : ResourceWorld) :
    (destructAll (constructN n w).2 (constructN n w).1).live = w.live :=
  destructAll_live (constructN n w).2 (constructN n w).1 w.live (constructN_live n w)

/-- Helper for C8: a body with no status-observing statement always
succeeds, and its outcome depends only on the state effects of the native
calls, never on their status results. -/
theorem execBody_no_check {σ : Type} (sem sem' : NativeSem σ)
    (heff : sem.effect = sem'.effect) :
    ∀ b : List CppStmt, b.all (fun st => !observesStatus st) = true → ∀ s : σ,
      (∃ s' : σ, execBody sem b s = .ok s') ∧ execBody sem b s = execBody sem' b s := by
  intro b
  induction b with
  | nil =>
      intro _ s
      exact ⟨⟨s, rfl⟩, rfl⟩
  | cons st rest ih =>
      intro hall s
      simp only [List.all_cons, Bool.and_eq_true] at hall
      match st with
      | .callNativeOnMtx c =>
          have := ih hall.2 (sem.effect c s)
          refine ⟨this.1, ?_⟩
          simp only [execBody]
          rw [this.2, heff]
      | .checkNativeOnMtx c =>
          exact absurd hall.1 (by simp [observesStatus])

/-- C8: no operation of any variant surfaces an error: every member body
of the header evaluates to a normal result under every native semantics,
its outcome is independent of the status values the native calls return
(the wrapper never observes them), and every `lock` / `unlock` member
returns void. -/
theorem no_error_surfaced {σ : Type} (b : List CppStmt) (hb : b ∈ wrapperBodies)
    (sem sem' : NativeSem σ) (heff : sem.effect = sem'.effect) (s : σ) :
    (∃ s' : σ, execBody sem b s = .ok s') ∧
    execBody sem b s = execBody sem' b s ∧
    lockUnlockMembers.all (fun m => m.returnsVoid) = true := by
  have hall : b.all (fun st => !observesStatus st) = true := by
    have hforall : ∀ b' ∈ wrapperBodies, b'.all (fun st => !observesStatus st) = true := by
      decide
    exact hforall b hb
  have h := execBody_no_check sem sem' heff b hall s
  exact ⟨h.1, h.2, by decide⟩

/-- Witness for `no_error_surfaced` at the `pthread_mutex::lock` body, with
two concrete semantics sharing their state effect but not their statuses. -/
theorem no_error_surfaced_witness :
    (pthread_mutex_lock_body ∈ wrapperBodies ∧ idSem0.effect = idSem1.effect) ∧
    ((∃ s' : Nat, execBody idSem0 pthread_mutex_lock_body 0 = .ok s') ∧
      execBody idSem0 pthread_mutex_lock_body 0 = execBody idSem1 pthread_mutex_lock_body 0 ∧
      lockUnlockMembers.all (fun m => m.returnsVoid) = true) :=
  ⟨⟨by decide, rfl⟩,
    no_error_surfaced pthread_mutex_lock_body (by decide) idSem0 idSem1 rfl 0⟩

/-- C10: `null_mutex::lock` and `null_mutex::unlock` are static members
whose bodies touch no instance state (not even the `mtx` member, which the
class does not have), while the `lock` / `unlock` members of the two real
variants are instance-bound and operate on their `mtx` member. -/
theorem null_mutex_ops_static :
    null_mutex_decl.lockMember.isStatic = true ∧
    null_mutex_decl.unlockMember.isStatic = true ∧
    null_mutex_decl.lockMember.body.any usesMtxMember = false ∧
    null_mutex_decl.unlockMember.body.any usesMtxMember = false ∧
    win32_mutex_decl.lockMember.isStatic = false ∧
    win32_mutex_decl.unlockMember.isStatic = false ∧
    win32_mutex_decl.lockMember.body.any usesMtxMember = true ∧
    win32_mutex_decl.unlockMember.body.any usesMtxMember = true ∧
    pthread_mutex_decl.lockMember.isStatic = false ∧
    pthread_mutex_decl.unlockMember.isStatic = false ∧
    pthread_mutex_decl.lockMember.body.any usesMtxMember = true ∧
    pthread_mutex_decl.unlockMember.body.any usesMtxMember = true := by
  decide

end BoostPoolMutex
